import Mathlib

/-!
Verification development for the frost_ogc integration
(custom_components/frost_ogc: __init__.py, sensor.py, config_flow.py).

The Python code is shallowly embedded: JSON/Python values become the
inductive type PyVal, Python dicts used as JSON objects become association
lists, the mutable extra_state_attributes dict of a sensor entity becomes a
function from keys to optional values, float arithmetic is modelled over ℚ
(no rounding is relevant to any property below), and an exception that a
coroutine may raise is modelled with an explicit outcome type.
-/

/-- Model of a Python/JSON value as it flows through the integration:
None, a number (int or float, modelled over ℚ), a string, a list, or a
string-keyed object. -/
inductive PyVal where
  | none
  | num (q : ℚ)
  | str (s : String)
  | list (xs : List PyVal)
  | dict (entries : List (String × PyVal))

/-- Lookup in a JSON object (Python dict.get(k)); first matching key wins. -/
def dictGet (d : List (String × PyVal)) (k : String) : Option PyVal :=
  match d with
  | [] => Option.none
  | (k1, v) :: rest => if k1 = k then Option.some v else dictGet rest k

/-- Python dict.get(k, default). -/
def dictGetD (d : List (String × PyVal)) (k : String) (dflt : PyVal) : PyVal :=
  (dictGet d k).getD dflt

/-- Python truthiness of a value, as used by the `x or y` idioms in the
source (`props or {}`, `mh or {}`, `kws or []`). -/
def truthy : PyVal → Bool
  | PyVal.none => false
  | PyVal.num q => decide (q ≠ 0)
  | PyVal.str s => !(s == "")
  | PyVal.list xs => !xs.isEmpty
  | PyVal.dict es => !es.isEmpty

/-- Digit run to a natural number (the integer read off a digit list). -/
def digitsToNat (ds : List Char) : ℕ :=
  ds.foldl (fun a c => 10 * a + (c.toNat - 48)) 0

/-- Match of the pattern of sensor.py line 23, regex [-+]?\d+(\.\d+)? ,
anchored at the start of the character list: an optional sign, then at
least one digit, then optionally a point followed by at least one digit
(the fractional group is dropped when no digit follows the point, exactly
as the regex engine drops the optional group).  Returns the matched
characters.  When a sign is present but no digit follows it, there is no
match at this position at all: backtracking to the signless alternative
still needs a digit first, and the sign character is not one. -/
def matchNumAt (cs : List Char) : Option (List Char) :=
  let sr : List Char × List Char :=
    match cs with
    | c :: r => if c = '-' || c = '+' then ([c], r) else ([], cs)
    | [] => ([], [])
  let ds := sr.2.takeWhile Char.isDigit
  let rest2 := sr.2.dropWhile Char.isDigit
  if ds.isEmpty then Option.none
  else
    let frac : List Char :=
      match rest2 with
      | '.' :: r2 =>
        let fs := r2.takeWhile Char.isDigit
        if fs.isEmpty then [] else '.' :: fs
      | _ => []
    Option.some (sr.1 ++ ds ++ frac)

/-- re.search semantics for the pattern above: leftmost match wins, found
by trying every start position from the left. -/
def searchNum : List Char → Option (List Char)
  | [] => Option.none
  | c :: rest =>
    match matchNumAt (c :: rest) with
    | Option.some m => Option.some m
    | Option.none => searchNum rest

/-- Exact rational value of an unsigned matched number (digits, optionally
followed by a point and fraction digits): the digit string ip.fs denotes
the rational with numerator ipfs (all digits) and denominator 10 to the
number of fraction digits. -/
def parseUnsigned (cs : List Char) : ℚ :=
  let ip := cs.takeWhile Char.isDigit
  let rest := cs.dropWhile Char.isDigit
  match rest with
  | '.' :: fs => mkRat (digitsToNat (ip ++ fs)) (10 ^ fs.length)
  | _ => (digitsToNat ip : ℚ)

/-- Value of a matched number including its optional sign (Python float of
the matched substring, exact over ℚ). -/
def parseNum : List Char → ℚ
  | '-' :: r => - parseUnsigned r
  | '+' :: r => parseUnsigned r
  | cs => parseUnsigned cs

/-- The string branch of _safe_float (sensor.py lines 20 to 26): replace
every comma by a point (v.replace(",", ".") for the single-character
pattern is a character map), then search for the first number and parse
it.  Option.none when the regex finds no match. -/
def extractFloat (s : String) : Option ℚ :=
  (searchNum (s.data.map (fun c => if c = ',' then '.' else c))).map parseNum

/-- _safe_float from sensor.py lines 15 to 29.  None gives the default; a
string goes through regex extraction, with the default on no match; a
number converts directly; float() raising on any other type (list, dict)
is caught by the bare except and gives the default.  The embedding is a
total function: no input raises. -/
def _safe_float (v : PyVal) (dflt : Option ℚ) : Option ℚ :=
  match v with
  | PyVal.none => dflt
  | PyVal.str s =>
    match extractFloat s with
    | Option.none => dflt
    | Option.some q => Option.some q
  | PyVal.num q => Option.some q
  | PyVal.list _ => dflt
  | PyVal.dict _ => dflt

example : _safe_float (PyVal.str "347.9 m. üNN") Option.none = Option.some (mkRat 3479 10) := by decide
example : _safe_float (PyVal.str "140") Option.none = Option.some 140 := by decide
example : _safe_float (PyVal.str "keine Zahl") Option.none = Option.none := by decide
example : _safe_float (PyVal.str ".5") Option.none = Option.some 5 := by decide
example : _safe_float (PyVal.str ",75") Option.none = Option.some 75 := by decide
example : _safe_float (PyVal.str "1,5") Option.none = Option.some (mkRat 15 10) := by decide
example : _safe_float (PyVal.str "-3.25") Option.none = Option.some (-(mkRat 325 100)) := by decide

/-- _get_meldehoehen from sensor.py lines 32 to 37: read the nested
Meldehöhen object out of the Thing property bag (with the two
falsy-coalescing or-idioms) and coerce its MH1, MH2, MH3 fields with
_safe_float.  A falsy or missing Meldehöhen value coalesces to the empty
object; a truthy value of non-object type would raise at the .get call in
the source and does not occur, so lookups treat it as empty here. -/
def _get_meldehoehen (props : List (String × PyVal)) : Option ℚ × Option ℚ × Option ℚ :=
  let mh : List (String × PyVal) :=
    match dictGetD props "Meldehöhen" PyVal.none with
    | PyVal.dict es => es
    | _ => []
  (_safe_float (dictGetD mh "MH1" PyVal.none) Option.none,
   _safe_float (dictGetD mh "MH2" PyVal.none) Option.none,
   _safe_float (dictGetD mh "MH3" PyVal.none) Option.none)

/-- Python str() of a value, as applied by _is_pegel before lowercasing.
Only the string case is ever compared against the pegel literals; the
renderings of the other cases differ from CPython in formatting but none
of them can equal "pegel" or the keyword literals, which is all the code
observes. -/
def pyStr : PyVal → String
  | PyVal.str s => s
  | PyVal.none => "None"
  | PyVal.num q => toString q
  | PyVal.list _ => "[...]"
  | PyVal.dict _ => "\x7b...\x7d"

/-- Python str.lower(), restricted to ASCII letters (all letters the code
compares against are ASCII), working on the character list. -/
def pyLower (s : String) : String :=
  String.mk (s.data.map Char.toLower)

/-- Python str.strip(): leading and trailing whitespace removed; used only
by the claim-side transcription, the code never strips. -/
def trimWs (s : String) : String :=
  String.mk (((s.data.dropWhile Char.isWhitespace).reverse.dropWhile
    Char.isWhitespace).reverse)

/-- Elements of a Python value iterated as a list.  The only non-list
values reaching this in the source would raise or iterate characters;
neither occurs in the modelled domain. -/
def pyAsList : PyVal → List PyVal
  | PyVal.list xs => xs
  | _ => []

/-- _is_pegel from sensor.py lines 40 to 48: falsy (empty) property bag is
not a gauge; a type field whose lowercased string form equals "pegel" is;
otherwise the lowercased keywords list is searched for "pegel" or
"wasserstandsmessung".  Note the source lowercases but never strips
whitespace. -/
def _is_pegel (props : List (String × PyVal)) : Bool :=
  if props.isEmpty then false
  else if pyLower (pyStr (dictGetD props "type" (PyVal.str ""))) == "pegel" then true
  else
    let kwsv := dictGetD props "keywords" PyVal.none
    let kws := pyAsList (if truthy kwsv then kwsv else PyVal.list [])
    let kws_l := kws.map (fun x => pyLower (pyStr x))
    kws_l.contains "pegel" || kws_l.contains "wasserstandsmessung"

/-- Transcription of the claim wording for C4 (and spec section 4.3): the
type comparison and the keyword comparisons are made on trimmed,
lowercased values. -/
def is_water_gauge_claim (props : List (String × PyVal)) : Bool :=
  if props.isEmpty then false
  else if trimWs (pyLower (pyStr (dictGetD props "type" (PyVal.str "")))) == "pegel" then true
  else
    let kws := pyAsList (dictGetD props "keywords" (PyVal.list []))
    let kws_l := kws.map (fun x => trimWs (pyLower (pyStr x)))
    kws_l.contains "pegel" || kws_l.contains "wasserstandsmessung"

/-- Transcription of the amended C4 wording: as the claim, but the
compared values are lowercased only, never trimmed, and a falsy keywords
value coalesces to the empty list. -/
def is_water_gauge_amended (props : List (String × PyVal)) : Bool :=
  !props.isEmpty &&
    (pyLower (pyStr (dictGetD props "type" (PyVal.str ""))) == "pegel" ||
      (let kwsv := dictGetD props "keywords" PyVal.none
       let kws_l := (pyAsList (if truthy kwsv then kwsv else PyVal.list [])).map
         (fun x => pyLower (pyStr x))
       kws_l.contains "pegel" || kws_l.contains "wasserstandsmessung"))

/-- Condition of one threshold test in the level update (sensor.py lines
251 to 256): the threshold is not None and the reading p is at least it. -/
def geOpt (p : ℚ) : Option ℚ → Bool
  | Option.some t => decide (t ≤ p)
  | Option.none => false

/-- The if-elif-elif chain of FrostMeldehoeheLevelSensor.async_update
(sensor.py lines 250 to 258), for a present reading p: level starts at 0
and the first satisfied test, from mh3 down to mh1, sets it. -/
def computeLevel (p : ℚ) (mh1 mh2 mh3 : Option ℚ) : ℕ :=
  if geOpt p mh3 then 3
  else if geOpt p mh2 then 2
  else if geOpt p mh1 then 1
  else 0

/-- FrostMeldehoeheLevelSensor.async_update (sensor.py lines 237 to 258),
as a function of the value sensor state it reads: the raw native value of
the value sensor is coerced with _safe_float (default None); when that is
None the level sensor state becomes None, otherwise the threshold chain
runs.  The mh1, mh2, mh3 inputs are the value sensor attributes of those
names. -/
def levelSensorUpdate (nativeValue : PyVal) (mh1 mh2 mh3 : Option ℚ) : Option ℕ :=
  match _safe_float nativeValue Option.none with
  | Option.none => Option.none
  | Option.some p => Option.some (computeLevel p mh1 mh2 mh3)

/-- Transcription of the classify contract of spec section 4.1, innermost
step: mh1 alone. -/
def classify_spec_mh1 (v : ℚ) (mh1 : Option ℚ) : ℕ :=
  match mh1 with
  | Option.some t1 => if t1 ≤ v then 1 else 0
  | Option.none => 0

/-- Transcription of the classify contract of spec section 4.1, step for
mh2: present and reached gives 2, otherwise fall through to mh1. -/
def classify_spec_mh2 (v : ℚ) (mh1 mh2 : Option ℚ) : ℕ :=
  match mh2 with
  | Option.some t2 => if t2 ≤ v then 2 else classify_spec_mh1 v mh1
  | Option.none => classify_spec_mh1 v mh1

/-- Transcription of the classify contract of spec section 4.1: 0 for a
non-gauge or a missing value, otherwise thresholds evaluated from highest
to lowest, a missing threshold skipped without blocking the lower ones. -/
def classify_spec (value : Option ℚ) (mh1 mh2 mh3 : Option ℚ) (is_gauge : Bool) : ℕ :=
  if is_gauge then
    match value with
    | Option.none => 0
    | Option.some v =>
      match mh3 with
      | Option.some t3 => if t3 ≤ v then 3 else classify_spec_mh2 v mh1 mh2
      | Option.none => classify_spec_mh2 v mh1 mh2
  else 0

/-- The mutable extra_state_attributes dict of a sensor entity, as a map
from attribute name to its value (Option.none for an absent key). -/
def Attrs : Type := String → Option PyVal

/-- Python dict key assignment d[k] = v, and the dict.update of
sensor.py line 203 applied one key at a time. -/
def aset (d : Attrs) (k : String) (v : PyVal) : Attrs :=
  fun q => if q = k then Option.some v else d q

/-- Python dict.pop(k, None): the key is absent afterwards, and a missing
key does not raise. -/
def apop (d : Attrs) (k : String) : Attrs :=
  fun q => if q = k then Option.none else d q

/-- State of a FrostLatestObservationSensor that its async_update mutates:
the native value and the attribute dict. -/
structure ObsState where
  native_value : PyVal
  attrs : Attrs

/-- Body of FrostLatestObservationSensor.async_update after a successful
fetch (sensor.py lines 192 to 211), applied to the value array of the
response.  Empty array: native value None, the observation_note marker is
set, and phenomenonTime, resultTime and observation_id are popped.
Otherwise the first observation provides the native value, the three
observation attributes are written, and the marker is popped. -/
def obsUpdate (st : ObsState) (values : List (List (String × PyVal))) : ObsState :=
  match values with
  | [] =>
    { native_value := PyVal.none
      attrs :=
        apop (apop (apop (aset st.attrs "observation_note" (PyVal.str "no observations"))
          "phenomenonTime") "resultTime") "observation_id" }
  | obs :: _ =>
    { native_value := dictGetD obs "result" PyVal.none
      attrs :=
        apop (aset (aset (aset st.attrs
          "phenomenonTime" (dictGetD obs "phenomenonTime" PyVal.none))
          "resultTime" (dictGetD obs "resultTime" PyVal.none))
          "observation_id" (dictGetD obs "@iot.id" PyVal.none))
          "observation_note" }

/-- Outcome of the per-entity observation fetch: raise_for_status raising
on a non-2xx response, or a successful response carrying the value array. -/
inductive ObsFetch where
  | failure (status : ℕ)
  | success (values : List (List (String × PyVal)))

/-- FrostLatestObservationSensor.async_update as a whole (sensor.py lines
183 to 211): the pair is the entity state after the call and whether an
exception propagated out of it.  raise_for_status runs before any state
write, so on failure the state is the input state, untouched. -/
def frostLatestObservation_update (st : ObsState) (f : ObsFetch) : ObsState × Bool :=
  match f with
  | ObsFetch.failure _ => (st, true)
  | ObsFetch.success values => (obsUpdate st values, false)

/-- Outcome of the metadata fetch of async_update_datastreams: network
error, non-2xx response, malformed JSON body, or a good JSON object. -/
inductive FetchOutcome where
  | netError (msg : String)
  | httpError (status : ℕ)
  | jsonError
  | ok (data : List (String × PyVal))

/-- True exactly on the successful outcome. -/
def FetchOutcome.succeeded : FetchOutcome → Bool
  | FetchOutcome.ok _ => true
  | _ => false

/-- async_update_datastreams from __init__.py lines 49 to 57: on success
the value field of the body (defaulting to the empty list) is returned;
the bare except over the whole fetch turns every failure into an
UpdateFailed raised to the coordinator, modelled as the error case. -/
def async_update_datastreams : FetchOutcome → Except String PyVal
  | FetchOutcome.ok data => Except.ok (dictGetD data "value" (PyVal.list []))
  | _ => Except.error "Datastreams fetch failed"

/-- The attribute keys FrostLatestObservationSensor.__init__ writes once
from the static descriptor (sensor.py lines 166 to 179). -/
def staticAttrKeys : List String :=
  ["datastream_id", "datastream_description", "thing_id", "thing_name",
   "thing_description", "thing_properties", "mh1", "mh2", "mh3"]

/-- The Meldehöhen property bag of spec scenario A: string thresholds
"140", "180", "220 cm". -/
def scenarioAProps : List (String × PyVal) :=
  [("Meldehöhen", PyVal.dict
    [("MH1", PyVal.str "140"), ("MH2", PyVal.str "180"), ("MH3", PyVal.str "220 cm")])]

theorem computeLevel_eq_classify_spec (p : ℚ) (m1 m2 m3 : Option ℚ) :
    computeLevel p m1 m2 m3 = classify_spec (Option.some p) m1 m2 m3 true := by
  rcases m3 with _ | t3 <;> rcases m2 with _ | t2 <;> rcases m1 with _ | t1 <;>
    simp [computeLevel, geOpt, classify_spec, classify_spec_mh2, classify_spec_mh1]

/-- C1: for a gauge datastream whose reading coerces to a number p, the
level sensor computes exactly the spec classify contract, applied to the
thresholds extracted (with string-to-float coercion) from the Meldehöhen
property bag: thresholds are checked from mh3 down to mh1, a missing
threshold is skipped without blocking a lower one. -/
theorem c1_threshold_chain (props : List (String × PyVal)) (v : PyVal) (p : ℚ)
    (h : _safe_float v Option.none = Option.some p) :
    levelSensorUpdate v (_get_meldehoehen props).1 (_get_meldehoehen props).2.1
        (_get_meldehoehen props).2.2
      = Option.some (classify_spec (Option.some p) (_get_meldehoehen props).1
          (_get_meldehoehen props).2.1 (_get_meldehoehen props).2.2 true) := by
  unfold levelSensorUpdate
  rw [h]
  exact congrArg Option.some (computeLevel_eq_classify_spec p _ _ _)

/-- Witness for C1 at spec scenario A: reading 195 against thresholds
"140", "180", "220 cm", which coerce to 140, 180 and 220, and whose
classification is level 2. -/
theorem c1_witness :
    _safe_float (PyVal.num 195) Option.none = Option.some 195
    ∧ _get_meldehoehen scenarioAProps
        = (Option.some 140, Option.some 180, Option.some 220)
    ∧ levelSensorUpdate (PyVal.num 195) (_get_meldehoehen scenarioAProps).1
        (_get_meldehoehen scenarioAProps).2.1 (_get_meldehoehen scenarioAProps).2.2
      = Option.some (classify_spec (Option.some 195) (_get_meldehoehen scenarioAProps).1
          (_get_meldehoehen scenarioAProps).2.1 (_get_meldehoehen scenarioAProps).2.2 true)
    ∧ classify_spec (Option.some 195) (Option.some 140) (Option.some 180)
        (Option.some 220) true = 2 :=
  ⟨rfl, by decide, c1_threshold_chain scenarioAProps (PyVal.num 195) 195 rfl, by decide⟩

/-- C2 counterexample: with all three thresholds configured, a None
reading makes the level sensor state None, which is not the 0 the claim
requires. -/
theorem c2_counterexample :
    levelSensorUpdate PyVal.none (Option.some 1) (Option.some 2) (Option.some 3) = Option.none
    ∧ Option.none ≠ Option.some (0 : ℕ) :=
  ⟨rfl, by decide⟩

/-- C2 amended: whenever the value sensor reading coerces to None (in
particular when it is None), the level sensor state after an update is
None (unknown), for every threshold configuration; it is never forced to
0, and a non-gauge Thing gets no level sensor at all. -/
theorem c2_none_reading_gives_none_level (v : PyVal) (mh1 mh2 mh3 : Option ℚ)
    (h : _safe_float v Option.none = Option.none) :
    levelSensorUpdate v mh1 mh2 mh3 = Option.none := by
  unfold levelSensorUpdate
  rw [h]

/-- Witness for the amended C2 at the concrete None reading. -/
theorem c2_witness :
    _safe_float PyVal.none Option.none = Option.none
    ∧ levelSensorUpdate PyVal.none (Option.some 1) (Option.some 2) (Option.some 3)
        = Option.none :=
  ⟨rfl, c2_none_reading_gives_none_level PyVal.none
    (Option.some 1) (Option.some 2) (Option.some 3) rfl⟩

/-- C3: _safe_float is a total function of its input (the embedding of a
function that never raises): None gives the default, numbers convert
directly, other non-string types give the default, a string parses to its
first extracted number or gives the default when none is found; with the
concrete evaluations the claim lists. -/
theorem c3_safe_float_behaviour :
    (∀ d : Option ℚ, _safe_float PyVal.none d = d)
    ∧ (∀ (q : ℚ) (d : Option ℚ), _safe_float (PyVal.num q) d = Option.some q)
    ∧ (∀ (xs : List PyVal) (d : Option ℚ), _safe_float (PyVal.list xs) d = d)
    ∧ (∀ (es : List (String × PyVal)) (d : Option ℚ), _safe_float (PyVal.dict es) d = d)
    ∧ (∀ (s : String) (d : Option ℚ),
        extractFloat s = Option.none → _safe_float (PyVal.str s) d = d)
    ∧ (∀ (s : String) (d : Option ℚ) (q : ℚ),
        extractFloat s = Option.some q → _safe_float (PyVal.str s) d = Option.some q)
    ∧ _safe_float (PyVal.str "347.9 m. üNN") Option.none = Option.some (mkRat 3479 10)
    ∧ _safe_float (PyVal.str "140") Option.none = Option.some 140
    ∧ _safe_float (PyVal.str "1,5") Option.none = Option.some (mkRat 15 10)
    ∧ _safe_float (PyVal.str "keine Zahl") Option.none = Option.none
    ∧ _safe_float PyVal.none (Option.some 7) = Option.some 7
    ∧ _safe_float (PyVal.num 42) Option.none = Option.some 42 := by
  refine ⟨fun d => rfl, fun q d => rfl, fun xs d => rfl, fun es d => rfl,
    ?_, ?_, by decide, by decide, by decide, by decide, rfl, rfl⟩
  · intro s d h
    simp only [_safe_float, h]
  · intro s d q h
    simp only [_safe_float, h]

/-- Witness for C3 at a concrete no-match string with a non-None default. -/
theorem c3_witness :
    extractFloat "keine Zahl" = Option.none
    ∧ _safe_float (PyVal.str "keine Zahl") (Option.some 3) = Option.some 3 :=
  ⟨by decide, c3_safe_float_behaviour.2.2.2.2.1 "keine Zahl" (Option.some 3) (by decide)⟩

/-- C4 counterexample: a type value with surrounding whitespace, " Pegel ".
Under the claim (trimmed, case-insensitive comparison) this property map
is a water gauge; _is_pegel lowercases but never trims, so the code says
it is not. -/
theorem c4_counterexample :
    _is_pegel [("type", PyVal.str " Pegel ")] = false
    ∧ is_water_gauge_claim [("type", PyVal.str " Pegel ")] = true := by
  constructor <;> decide

/-- C4 amended: _is_pegel is true exactly when the property map is
nonempty and either the lowercased (untrimmed) string form of the type
field equals "pegel", or the keywords list, lowercased and untrimmed,
contains "pegel" or "wasserstandsmessung". -/
theorem c4_lower_no_trim (props : List (String × PyVal)) :
    _is_pegel props = is_water_gauge_amended props := by
  cases hp : props.isEmpty <;>
    cases ht : pyLower (pyStr (dictGetD props "type" (PyVal.str ""))) == "pegel" <;>
      simp [_is_pegel, is_water_gauge_amended, hp, ht]

/-- Initial entity state used by the C5 counterexample: a previous cycle
left a reading and observation attributes behind. -/
def c5State : ObsState :=
  { native_value := PyVal.num 195
    attrs := aset (aset (fun _ => Option.none)
      "phenomenonTime" (PyVal.str "2024-05-01T00:00:00Z")) "mh1" (PyVal.num 140) }

/-- C5 counterexample: after an empty observation result set, the reading
is None as the claim says, but the level sensor recomputes to None, not to
the claimed 0. -/
theorem c5_counterexample :
    (obsUpdate c5State []).native_value = PyVal.none
    ∧ levelSensorUpdate (obsUpdate c5State []).native_value
        (Option.some 140) (Option.some 180) (Option.some 220) = Option.none
    ∧ Option.none ≠ Option.some (0 : ℕ) :=
  ⟨rfl, rfl, by decide⟩

/-- C5 amended: an empty result set is handled, not raised: the update
returns normally, the reading becomes None, the observation_note marker is
set, phenomenonTime, resultTime and observation_id are removed, and the
level sensor derived from the reading resets to None (unknown), for every
prior state and every threshold configuration. -/
theorem c5_empty_result_is_no_observation_state (st : ObsState) :
    frostLatestObservation_update st (ObsFetch.success []) = (obsUpdate st [], false)
    ∧ (obsUpdate st []).native_value = PyVal.none
    ∧ (obsUpdate st []).attrs "observation_note"
        = Option.some (PyVal.str "no observations")
    ∧ (obsUpdate st []).attrs "phenomenonTime" = Option.none
    ∧ (obsUpdate st []).attrs "resultTime" = Option.none
    ∧ (obsUpdate st []).attrs "observation_id" = Option.none
    ∧ (∀ mh1 mh2 mh3 : Option ℚ,
        levelSensorUpdate (obsUpdate st []).native_value mh1 mh2 mh3 = Option.none) :=
  ⟨rfl, rfl, rfl, rfl, rfl, rfl, fun _ _ _ => rfl⟩

/-- C6: the attribute merge is idempotent: running the update a second
time with the same fetched value array (also the empty one) changes
neither the native value nor any attribute, because every field that can
go stale is rewritten or popped on every cycle. -/
theorem c6_update_idempotent (st : ObsState) (values : List (List (String × PyVal))) :
    obsUpdate (obsUpdate st values) values = obsUpdate st values := by
  cases values with
  | nil =>
    simp only [obsUpdate]
    congr 1
    funext q
    by_cases h1 : q = "observation_id" <;> by_cases h2 : q = "resultTime" <;>
      by_cases h3 : q = "phenomenonTime" <;> by_cases h4 : q = "observation_note" <;>
      simp [aset, apop, h1, h2, h3, h4]
  | cons obs rest =>
    simp only [obsUpdate]
    congr 1
    funext q
    by_cases h1 : q = "observation_id" <;> by_cases h2 : q = "resultTime" <;>
      by_cases h3 : q = "phenomenonTime" <;> by_cases h4 : q = "observation_note" <;>
      simp [aset, apop, h1, h2, h3, h4]

/-- C7: every failing metadata fetch outcome is turned into the single
UpdateFailed error by the catch-all around the whole fetch; no partial
datastream list is produced. -/
theorem c7_metadata_failure_aborts (o : FetchOutcome) (h : o.succeeded = false) :
    async_update_datastreams o = Except.error "Datastreams fetch failed" := by
  cases o with
  | ok data => exact absurd h (by simp [FetchOutcome.succeeded])
  | netError m => rfl
  | httpError s => rfl
  | jsonError => rfl

/-- Witness for C7 at the malformed-JSON outcome. -/
theorem c7_witness :
    FetchOutcome.succeeded FetchOutcome.jsonError = false
    ∧ async_update_datastreams FetchOutcome.jsonError
        = Except.error "Datastreams fetch failed" :=
  ⟨rfl, c7_metadata_failure_aborts FetchOutcome.jsonError rfl⟩

/-- C8: a failing per-entity observation fetch propagates out of the
update (second component true) and leaves the entity state exactly as it
was, because raise_for_status runs before any state write. -/
theorem c8_observation_failure_atomic (st : ObsState) (status : ℕ) :
    frostLatestObservation_update st (ObsFetch.failure status) = (st, true) := rfl

/-- C9: an observation update, failing or successful, with or without an
observation, never changes any of the static attributes written at
construction (datastream and Thing metadata and the three thresholds). -/
theorem c9_static_attrs_frame (st : ObsState) (f : ObsFetch) (k : String)
    (h : k ∈ staticAttrKeys) :
    ((frostLatestObservation_update st f).1).attrs k = st.attrs k := by
  have hall : ∀ x ∈ staticAttrKeys, x ≠ "observation_note" ∧ x ≠ "phenomenonTime"
      ∧ x ≠ "resultTime" ∧ x ≠ "observation_id" := by decide
  obtain ⟨n1, n2, n3, n4⟩ := hall k h
  cases f with
  | failure s => rfl
  | success values =>
    cases values with
    | nil => simp [frostLatestObservation_update, obsUpdate, aset, apop, n1, n2, n3, n4]
    | cons obs rest =>
      simp [frostLatestObservation_update, obsUpdate, aset, apop, n1, n2, n3, n4]

/-- Initial entity state used by the C9 witness. -/
def c9State : ObsState :=
  { native_value := PyVal.none, attrs := fun _ => Option.none }

/-- Witness for C9: the mh1 attribute survives an update with an empty
result set. -/
theorem c9_witness :
    "mh1" ∈ staticAttrKeys
    ∧ ((frostLatestObservation_update c9State (ObsFetch.success [])).1).attrs "mh1"
        = c9State.attrs "mh1" :=
  ⟨by decide, c9_static_attrs_frame c9State (ObsFetch.success []) "mh1" (by decide)⟩

/-- C10: the extraction pattern needs a digit before the optional
fractional part, so a leading decimal separator is dropped and only the
digits after it are parsed: ".5" gives 5 and ",75" gives 75. -/
theorem c10_leading_separator_dropped :
    _safe_float (PyVal.str ".5") Option.none = Option.some 5
    ∧ _safe_float (PyVal.str ",75") Option.none = Option.some 75 :=
  ⟨by decide, by decide⟩
